import Mathlib

/-!
Verification of the geometric proof-step engine (client/proof): the statement
model, the reason catalog with structural equality and occurrence-based
substitution, and the step verifier.  Definitions are shallow embeddings of
the TypeScript sources; JavaScript `undefined` produced by out-of-range array
indexing is modelled with `Option`, and a thrown exception surfaces as `none`
of the embedding function's `Option` result type.
-/

namespace BespokeGeometry

/-- The closed set of statement kinds (statements.ts, `StatementKind`). -/
inductive StatementKind where
  | pointsDistinct
  | pointOnLine
  | lineEqualsLine
  | raysFormLine
  | uniqueLine
  | intersectionEquals
  | angleEqualsConstant
  | angleEqualsAngle
  | angleLessThanAngle
  | angleGreaterThanAngle
  | angleLeqAngle
  | angleGeqAngle
  | segmentEqualsSegment
  | trianglesCongruent
  | triangleAnglesSum180
  | pointMidpointOfSegment
deriving DecidableEq, Repr

/-- A provable fact: kind, ordered point names, optional numeric constant
(statements.ts, `Statement`).  The JS `number` constant is modelled as `ℚ`. -/
structure Statement where
  kind : StatementKind
  pointNames : List String
  constant : Option ℚ := none
deriving DecidableEq, Repr

/-- All 6 permutations of (0,1,2) for trying second-triangle orderings
(statements.ts, `TRIANGLE_SECOND_PERMS`). -/
def TRIANGLE_SECOND_PERMS : List (List Nat) :=
  [[0, 1, 2], [0, 2, 1], [1, 0, 2], [1, 2, 0], [2, 0, 1], [2, 1, 0]]

/-- JS template interpolation of `pointNames[i]`: out-of-range access prints
the string `undefined`. -/
def pn (s : Statement) (i : Nat) : String :=
  s.pointNames.getD i ("undefined")

/-- Rendering of the optional angle constant.  JS prints the raw number; the
digits of non-integer constants are not relied on by any theorem. -/
def constantToString : Option ℚ → String
  | none => "·"
  | some q => if q.den = 1 then toString q.num else toString q

/-- Human-readable string for a statement (statements.ts, `statementToString`). -/
def statementToString (s : Statement) : String :=
  match s.kind with
  | .pointsDistinct => pn s 0 ++ " ≠ " ++ pn s 1
  | .pointOnLine => pn s 0 ++ " ∈ line " ++ pn s 1 ++ pn s 2
  | .lineEqualsLine => "line " ++ pn s 0 ++ pn s 1 ++ " = line " ++ pn s 2 ++ pn s 3
  | .raysFormLine =>
      "ray " ++ pn s 0 ++ pn s 1 ++ " ∪ ray " ++ pn s 2 ++ pn s 1 ++ " = line " ++ pn s 0 ++ pn s 1
  | .uniqueLine => "∃₁ line through " ++ pn s 0 ++ ", " ++ pn s 1
  | .intersectionEquals =>
      pn s 0 ++ " = line " ++ pn s 1 ++ pn s 2 ++ " ∩ line " ++ pn s 3 ++ pn s 4
  | .angleEqualsConstant =>
      "∠" ++ pn s 0 ++ pn s 1 ++ pn s 2 ++ " = " ++ constantToString s.constant ++ "°"
  | .angleEqualsAngle =>
      "∠" ++ pn s 0 ++ pn s 1 ++ pn s 2 ++ " = ∠" ++ pn s 3 ++ pn s 4 ++ pn s 5
  | .angleLessThanAngle =>
      "∠" ++ pn s 0 ++ pn s 1 ++ pn s 2 ++ " < ∠" ++ pn s 3 ++ pn s 4 ++ pn s 5
  | .angleGreaterThanAngle =>
      "∠" ++ pn s 0 ++ pn s 1 ++ pn s 2 ++ " > ∠" ++ pn s 3 ++ pn s 4 ++ pn s 5
  | .angleLeqAngle =>
      "∠" ++ pn s 0 ++ pn s 1 ++ pn s 2 ++ " ≤ ∠" ++ pn s 3 ++ pn s 4 ++ pn s 5
  | .angleGeqAngle =>
      "∠" ++ pn s 0 ++ pn s 1 ++ pn s 2 ++ " ≥ ∠" ++ pn s 3 ++ pn s 4 ++ pn s 5
  | .segmentEqualsSegment => pn s 0 ++ pn s 1 ++ " = " ++ pn s 2 ++ pn s 3
  | .trianglesCongruent =>
      "Δ" ++ pn s 0 ++ pn s 1 ++ pn s 2 ++ " ≅ Δ" ++ pn s 3 ++ pn s 4 ++ pn s 5
  | .triangleAnglesSum180 =>
      "angles of Δ" ++ pn s 0 ++ pn s 1 ++ pn s 2 ++ " sum to 180°"
  | .pointMidpointOfSegment =>
      pn s 0 ++ " is midpoint of " ++ pn s 1 ++ pn s 2

/-- A reason schema (reasons.ts, `ReasonSchema`).  The optional TS `disabled`
field defaults to false. -/
structure ReasonSchema where
  id : String
  name : String
  reasonType : String
  premises : List Statement
  conclusion : Statement
  disabled : Bool := false
deriving DecidableEq, Repr

def REASON_GIVEN : String := "given"

def REASON_DEFINITION : String := "definition"

/-- The static reason catalog (reasons.ts, `REASONS`). -/
def REASONS : List ReasonSchema := [
  ⟨REASON_GIVEN, "Given in task statement", "axiom", [],
    ⟨.pointsDistinct, ["A", "B"], none⟩, false⟩,
  ⟨REASON_DEFINITION, "Definition", "definition", [],
    ⟨.pointOnLine, ["P", "A", "B"], none⟩, false⟩,
  ⟨"line-determination", "Incidence axiom I1 (two points determine a unique line)", "axiom",
    [⟨.pointsDistinct, ["A", "B"], none⟩], ⟨.uniqueLine, ["A", "B"], none⟩, false⟩,
  ⟨"point-on-line-same-line", "By I1 (point on line: line AC = line AB)", "theorem",
    [⟨.pointOnLine, ["C", "A", "B"], none⟩], ⟨.lineEqualsLine, ["A", "C", "A", "B"], none⟩, false⟩,
  ⟨"opposite-rays-form-line", "Theorem: opposite rays lie on one line", "theorem",
    [⟨.raysFormLine, ["A", "B", "C"], none⟩], ⟨.raysFormLine, ["A", "B", "C"], none⟩, false⟩,
  ⟨"reflexivity", "Reflexivity (AB = AB or ∠A = ∠A)", "definition", [],
    ⟨.segmentEqualsSegment, ["A", "B", "A", "B"], none⟩, false⟩,
  ⟨"transitivity-equals", "Transitivity (=)", "theorem",
    [⟨.angleEqualsConstant, ["A", "M", "C"], none⟩, ⟨.angleEqualsConstant, ["A", "M", "B"], none⟩],
    ⟨.angleEqualsAngle, ["A", "M", "C", "A", "M", "B"], none⟩, false⟩,
  ⟨"transitivity-less", "Transitivity (<)", "theorem",
    [⟨.angleLessThanAngle, ["A", "M", "B", "C", "N", "D"], none⟩,
     ⟨.angleLessThanAngle, ["C", "N", "D", "E", "P", "F"], none⟩],
    ⟨.angleLessThanAngle, ["A", "M", "B", "E", "P", "F"], none⟩, false⟩,
  ⟨"transitivity-greater", "Transitivity (>)", "theorem",
    [⟨.angleGreaterThanAngle, ["A", "M", "B", "C", "N", "D"], none⟩,
     ⟨.angleGreaterThanAngle, ["C", "N", "D", "E", "P", "F"], none⟩],
    ⟨.angleGreaterThanAngle, ["A", "M", "B", "E", "P", "F"], none⟩, false⟩,
  ⟨"transitivity-leq", "Transitivity (≤)", "theorem",
    [⟨.angleLeqAngle, ["A", "M", "B", "C", "N", "D"], none⟩,
     ⟨.angleLeqAngle, ["C", "N", "D", "E", "P", "F"], none⟩],
    ⟨.angleLeqAngle, ["A", "M", "B", "E", "P", "F"], none⟩, false⟩,
  ⟨"transitivity-geq", "Transitivity (≥)", "theorem",
    [⟨.angleGeqAngle, ["A", "M", "B", "C", "N", "D"], none⟩,
     ⟨.angleGeqAngle, ["C", "N", "D", "E", "P", "F"], none⟩],
    ⟨.angleGeqAngle, ["A", "M", "B", "E", "P", "F"], none⟩, false⟩,
  ⟨"sas", "Triangle congruence (SAS)", "theorem",
    [⟨.segmentEqualsSegment, ["A", "M", "A", "M"], none⟩,
     ⟨.segmentEqualsSegment, ["B", "M", "M", "C"], none⟩,
     ⟨.angleEqualsAngle, ["A", "M", "B", "A", "M", "C"], none⟩],
    ⟨.trianglesCongruent, ["A", "M", "B", "A", "M", "C"], none⟩, false⟩,
  ⟨"asa", "Triangle congruence (ASA)", "theorem",
    [⟨.angleEqualsAngle, ["C", "A", "B", "F", "D", "E"], none⟩,
     ⟨.segmentEqualsSegment, ["A", "B", "D", "E"], none⟩,
     ⟨.angleEqualsAngle, ["A", "B", "C", "D", "E", "F"], none⟩],
    ⟨.trianglesCongruent, ["A", "B", "C", "D", "E", "F"], none⟩, false⟩,
  ⟨"aas", "Triangle congruence (AAS)", "theorem",
    [⟨.angleEqualsAngle, ["C", "A", "B", "F", "D", "E"], none⟩,
     ⟨.angleEqualsAngle, ["A", "B", "C", "D", "E", "F"], none⟩,
     ⟨.segmentEqualsSegment, ["B", "C", "E", "F"], none⟩],
    ⟨.trianglesCongruent, ["A", "B", "C", "D", "E", "F"], none⟩, false⟩,
  ⟨"sss", "Triangle congruence (SSS)", "theorem",
    [⟨.segmentEqualsSegment, ["A", "B", "D", "E"], none⟩,
     ⟨.segmentEqualsSegment, ["B", "C", "E", "F"], none⟩,
     ⟨.segmentEqualsSegment, ["C", "A", "F", "D"], none⟩],
    ⟨.trianglesCongruent, ["A", "B", "C", "D", "E", "F"], none⟩, false⟩,
  ⟨"hl", "Triangle congruence (HL)", "theorem",
    [⟨.angleEqualsConstant, ["A", "B", "C"], none⟩,
     ⟨.angleEqualsConstant, ["D", "E", "F"], none⟩,
     ⟨.segmentEqualsSegment, ["A", "C", "D", "F"], none⟩,
     ⟨.segmentEqualsSegment, ["A", "B", "D", "E"], none⟩],
    ⟨.trianglesCongruent, ["A", "B", "C", "D", "E", "F"], none⟩, false⟩,
  ⟨"from-congruence", "From congruence (CPCTC): corresponding sides equal", "theorem",
    [⟨.trianglesCongruent, ["A", "M", "B", "A", "M", "C"], none⟩],
    ⟨.segmentEqualsSegment, ["A", "B", "A", "C"], none⟩, false⟩,
  ⟨"sum-triangle-angles", "Sum of triangle angles", "theorem", [],
    ⟨.triangleAnglesSum180, ["A", "B", "C"], none⟩, false⟩,
  ⟨"thales", "Thales theorem", "theorem", [],
    ⟨.angleEqualsConstant, ["A", "B", "C"], some 90⟩, false⟩]

/-- Plain statement equality: same kind and positionally identical point
names; the constant is not compared (reasons.ts, `statementsEqual`). -/
def statementsEqual (a b : Statement) : Bool :=
  a.kind == b.kind && a.pointNames == b.pointNames

/-- Lexicographic comparison of character lists by code point; JS `<` on
strings compares code units the same way for the BMP characters used as
point names. -/
def strLtCL : List Char → List Char → Bool
  | [], [] => false
  | [], _ :: _ => true
  | _ :: _, [] => false
  | a :: as, b :: bs =>
    if a.toNat < b.toNat then true
    else if b.toNat < a.toNat then false
    else strLtCL as bs

/-- JS string `<`. -/
def jsLt (s t : String) : Bool := strLtCL s.data t.data

/-- Symmetry key for a segment equality (reasons.ts, `segmentStatementKey`).
JS string comparison `<` is code-unit lexicographic, matching `String` order
on the character data. -/
def segmentStatementKey (s : Statement) : String :=
  if s.kind != StatementKind.segmentEqualsSegment || s.pointNames.length < 4 then ""
  else
    let a := s.pointNames.getD 0 ""
    let b := s.pointNames.getD 1 ""
    let c := s.pointNames.getD 2 ""
    let d := s.pointNames.getD 3 ""
    let seg1 := (if jsLt a b then a else b) ++ "," ++ (if jsLt a b then b else a)
    let seg2 := (if jsLt c d then c else d) ++ "," ++ (if jsLt c d then d else c)
    let first := if jsLt seg1 seg2 then seg1 else seg2
    let second := if jsLt seg1 seg2 then seg2 else seg1
    first ++ "|" ++ second

/-- Key of one angle triple: fixed vertex, order-independent arms
(reasons.ts, `angleTripleKey`). -/
def angleTripleKey (p0 p1 p2 : String) : String :=
  let other := if jsLt p0 p2 then p0 ++ "," ++ p2 else p2 ++ "," ++ p0
  p1 ++ ":" ++ other

/-- Symmetry key for an angle-equals-constant statement; the constant is
ignored (reasons.ts, `angleConstantStatementKey`). -/
def angleConstantStatementKey (s : Statement) : String :=
  if s.kind != StatementKind.angleEqualsConstant || s.pointNames.length < 3 then ""
  else angleTripleKey (s.pointNames.getD 0 "") (s.pointNames.getD 1 "") (s.pointNames.getD 2 "")

/-- Symmetry key for an angle-equals-angle statement (reasons.ts,
`angleStatementKey`). -/
def angleStatementKey (s : Statement) : String :=
  if s.kind != StatementKind.angleEqualsAngle || s.pointNames.length < 6 then ""
  else
    let k1 := angleTripleKey (s.pointNames.getD 0 "") (s.pointNames.getD 1 "") (s.pointNames.getD 2 "")
    let k2 := angleTripleKey (s.pointNames.getD 3 "") (s.pointNames.getD 4 "") (s.pointNames.getD 5 "")
    if jsLt k1 k2 then k1 ++ "|" ++ k2 else k2 ++ "|" ++ k1

/-- Structural equality: symmetry-aware for the three symmetric kinds, plain
equality otherwise (reasons.ts, `statementsEqualStructural`). -/
def statementsEqualStructural (a b : Statement) : Bool :=
  if a.kind != b.kind then false
  else if a.kind == StatementKind.segmentEqualsSegment then
    segmentStatementKey a == segmentStatementKey b
  else if a.kind == StatementKind.angleEqualsConstant then
    angleConstantStatementKey a == angleConstantStatementKey b
  else if a.kind == StatementKind.angleEqualsAngle then
    angleStatementKey a == angleStatementKey b
  else statementsEqual a b

/-- Index of the k-th (0-based) occurrence of `ph` in a placeholder list
(the inner scan of reasons.ts, `substitutePremiseByOccurrence`). -/
def kthOccurrenceIdx (ph : String) : List String → Nat → Option Nat
  | [], _ => none
  | c :: rest, k =>
    if c = ph then
      if k = 0 then some 0
      else (kthOccurrenceIdx ph rest (k - 1)).map (· + 1)
    else (kthOccurrenceIdx ph rest k).map (· + 1)

/-- The TS `used` map (`Map<string, number>`, missing keys read as 0) is
modelled as a total function. -/
def bumpUsed (used : String → Nat) (ph : String) (k : Nat) : String → Nat :=
  fun x => if x = ph then k + 1 else used x

/-- Walk a premise's placeholders, collecting the concrete names.  In JS,
`outcomePointNames[i]` with `i` beyond the outcome list would push
`undefined`; that access is only reachable when the outcome is shorter than
the conclusion template, which `verifyStep` rules out before substituting,
and the pushed value never affects which branch is taken, so it is modelled
as `""`. -/
def substPointsLoop (conclusionPointNames outcomePointNames : List String) :
    List String → (String → Nat) → Option (List String × (String → Nat))
  | [], used => some ([], used)
  | ph :: rest, used =>
    let k := used ph
    match kthOccurrenceIdx ph conclusionPointNames k with
    | none => none
    | some i =>
      match substPointsLoop conclusionPointNames outcomePointNames rest (bumpUsed used ph k) with
      | none => none
      | some (names, usedF) => some (outcomePointNames.getD i "" :: names, usedF)

/-- Substitute a premise using occurrence order (reasons.ts,
`substitutePremiseByOccurrence`).  The TS function mutates `used` in place
and returns `Statement | null`; here the updated map is returned alongside
the statement.  The constructed statement carries no constant. -/
def substitutePremiseByOccurrence (premise : Statement)
    (conclusionPointNames outcomePointNames : List String) (used : String → Nat) :
    Option (Statement × (String → Nat)) :=
  (substPointsLoop conclusionPointNames outcomePointNames premise.pointNames used).map
    (fun r => (⟨premise.kind, r.1, none⟩, r.2))

/-- A prerequisite reference: the literal `'given'` or a 1-based step index
(verify.ts, `PrerequisiteRef`). -/
inductive PrerequisiteRef where
  | given
  | idx (n : Nat)
deriving DecidableEq, Repr

/-- A proof step (verify.ts, `ProofStep`). -/
structure ProofStep where
  outcome : Statement
  reasonId : String
  prerequisiteRefs : List PrerequisiteRef
deriving DecidableEq, Repr

/-- The `{ ok, message }` record returned by `verifyStep`. -/
structure VerifyResult where
  ok : Bool
  message : String
deriving DecidableEq, Repr

/-- Resolve prerequisite refs to statements (verify.ts,
`getPrerequisiteStatements`).  A numeric ref passes the TS guard when
`1 <= ref && ref <= stepIndex`; `previousSteps[ref - 1]` is then read
unconditionally, and when that index is out of range the JS expression
`previousSteps[ref - 1].outcome` throws a TypeError — modelled as `none`. -/
def getPrerequisiteStatements (stepIndex : Nat) (prerequisiteRefs : List PrerequisiteRef)
    (previousSteps : List ProofStep) (taskGivens : List Statement) :
    Option (List Statement) :=
  match prerequisiteRefs with
  | [] => some []
  | .given :: rest =>
    (getPrerequisiteStatements stepIndex rest previousSteps taskGivens).map
      (fun out => taskGivens ++ out)
  | .idx n :: rest =>
    if 1 ≤ n ∧ n ≤ stepIndex then
      match previousSteps.get? (n - 1) with
      | none => none
      | some s =>
        (getPrerequisiteStatements stepIndex rest previousSteps taskGivens).map
          (fun out => s.outcome :: out)
    else getPrerequisiteStatements stepIndex rest previousSteps taskGivens

def unknownReasonResult : VerifyResult :=
  ⟨false, "Unknown or disabled reason."⟩

/-- The `'given'` branch of verify.ts `verifyStep` (lines 54-62). -/
def givenBranch (outcome : Statement) (taskGivens : List Statement) : VerifyResult :=
  if taskGivens.isEmpty then ⟨true, statementToString outcome⟩
  else if taskGivens.any (fun g => statementsEqual g outcome) then
    ⟨true, statementToString outcome⟩
  else ⟨false, "\"" ++ statementToString outcome ++ "\" is not in the task givens."⟩

/-- The `'definition'` branch: `checkStatement` (check.ts) is floating-point
coordinate geometry over the resolved context; it enters `verifyStep` only
here and is abstracted as the Boolean oracle `check`, standing for
`checkStatement ctx`. -/
def definitionBranch (check : Statement → Bool) (outcome : Statement) : VerifyResult :=
  if check outcome then ⟨true, statementToString outcome⟩
  else ⟨false, "Not satisfied in construction: " ++ statementToString outcome⟩

/-- The `'reflexivity'` branch of `verifyStep` (verify.ts lines 73-85). -/
def verifyReflexivity (outcome : Statement) : VerifyResult :=
  if outcome.kind == StatementKind.segmentEqualsSegment && outcome.pointNames.length == 4 then
    if outcome.pointNames.get? 0 == outcome.pointNames.get? 2 &&
        outcome.pointNames.get? 1 == outcome.pointNames.get? 3 then
      ⟨true, statementToString outcome⟩
    else ⟨false, "Reflexivity requires the same segment on both sides (e.g. AB = AB)."⟩
  else if outcome.kind == StatementKind.angleEqualsAngle && outcome.pointNames.length == 6 then
    if outcome.pointNames.get? 0 == outcome.pointNames.get? 3 &&
        outcome.pointNames.get? 1 == outcome.pointNames.get? 4 &&
        outcome.pointNames.get? 2 == outcome.pointNames.get? 5 then
      ⟨true, statementToString outcome⟩
    else ⟨false, "Reflexivity requires the same angle on both sides (e.g. ∠AMB = ∠AMB)."⟩
  else
    ⟨false, "Reflexivity: outcome must be AB = AB or ∠AMB = ∠AMB (same segment or angle twice)."⟩

/-- The `'thales'` branch of `verifyStep` (verify.ts lines 86-94). -/
def verifyThales (outcome : Statement) : VerifyResult :=
  if outcome.kind != StatementKind.angleEqualsConstant || outcome.pointNames.length != 3 then
    ⟨false, "Thales: conclusion must be a right angle (e.g. ∠ABC = 90°)."⟩
  else if outcome.constant != some 90 then
    ⟨false, "Thales theorem applies to a right angle (90°)."⟩
  else ⟨true, statementToString outcome⟩

/-- The `'sum-triangle-angles'` branch of `verifyStep` (verify.ts lines 95-100). -/
def verifySumAngles (outcome : Statement) : VerifyResult :=
  if outcome.kind != StatementKind.triangleAnglesSum180 || outcome.pointNames.length != 3 then
    ⟨false, "Conclusion must be: angles of a triangle sum to 180° (e.g. triangle ABC)."⟩
  else ⟨true, statementToString outcome⟩

/-- Bespoke matcher shared by `transitivity-equals` and the four chain
reasons once the first two prerequisites have been fetched: middle-term
check, then conclusion-shape check, then conclusion-content check
(verify.ts lines 115-131 and 141-157).  JS reads `pointNames[i]` without a
bound check, comparing possibly-`undefined` values with `!==`; the reads are
modelled with `get?` and `Option` equality. -/
def chainCore (kind : StatementKind) (conclShapeMsg : String) (p0 p1 outcome : Statement) :
    VerifyResult :=
  if !(p0.pointNames.get? 3 == p1.pointNames.get? 0 &&
       p0.pointNames.get? 4 == p1.pointNames.get? 1 &&
       p0.pointNames.get? 5 == p1.pointNames.get? 2) then
    ⟨false, "Middle term must match: second angle of first prerequisite = first angle of second."⟩
  else if !(outcome.kind == kind && outcome.pointNames.length == 6) then
    ⟨false, conclShapeMsg⟩
  else if !(outcome.pointNames.get? 0 == p0.pointNames.get? 0 &&
            outcome.pointNames.get? 1 == p0.pointNames.get? 1 &&
            outcome.pointNames.get? 2 == p0.pointNames.get? 2 &&
            outcome.pointNames.get? 3 == p1.pointNames.get? 3 &&
            outcome.pointNames.get? 4 == p1.pointNames.get? 4 &&
            outcome.pointNames.get? 5 == p1.pointNames.get? 5) then
    ⟨false, "Conclusion must be: first angle of prerequisite 1, second angle of prerequisite 2."⟩
  else ⟨true, statementToString outcome⟩

/-- The chain-reason branch (verify.ts lines 134-158): take the first two
resolved prerequisites, require both of the conclusion's kind, then run the
middle-term/conclusion checks. -/
def chainBranch (reason : ReasonSchema) (prereqStatements : List Statement)
    (outcome : Statement) : VerifyResult :=
  let kind := reason.conclusion.kind
  let kindsMsg : String :=
    "Prerequisites must be two " ++ statementToString reason.conclusion ++ "-type statements."
  match prereqStatements.get? 0, prereqStatements.get? 1 with
  | some p0, some p1 =>
    if p0.kind != kind || p1.kind != kind then ⟨false, kindsMsg⟩
    else chainCore kind
      ("Conclusion should be: " ++ statementToString reason.conclusion ++ " (with your point names).")
      p0 p1 outcome
  | _, _ => ⟨false, kindsMsg⟩

/-- First index of a prerequisite that is not yet consumed and satisfies
`pred` (the `findIndex` calls of verify.ts lines 175, 188 and 261). -/
def findMatchIdxFrom (pred : Statement → Bool) (used : List Nat) :
    List Statement → Nat → Option Nat
  | [], _ => none
  | p :: rest, k =>
    if !(used.contains k) && pred p then some k
    else findMatchIdxFrom pred used rest (k + 1)

/-- Greedy one-to-one matching of each required premise to a distinct,
not-yet-consumed prerequisite (verify.ts lines 172-178, 185-193, 258-268). -/
def matchRequiredWith (slot : Statement → Statement → Bool) (prereqStatements : List Statement) :
    List Statement → List Nat → Bool
  | [], _ => true
  | req :: rest, used =>
    match findMatchIdxFrom (fun p => slot p req) used prereqStatements 0 with
    | none => false
    | some i => matchRequiredWith slot prereqStatements rest (i :: used)

def structuralSlot (p req : Statement) : Bool :=
  statementsEqualStructural p req

def matchRequired (prereqStatements required : List Statement) : Bool :=
  matchRequiredWith structuralSlot prereqStatements required []

/-- First triangle of a 6-name congruence outcome (verify.ts `tri1`). -/
def tri1Of (names : List String) : List String :=
  [names.getD 0 "", names.getD 1 "", names.getD 2 ""]

/-- Second triangle reordered by a permutation (verify.ts `tri2`). -/
def tri2Of (names : List String) (perm : List Nat) : List String :=
  [names.getD (3 + perm.getD 0 0) "", names.getD (3 + perm.getD 1 0) "",
   names.getD (3 + perm.getD 2 0) ""]

/-- SAS required premises at rotation `v` (verify.ts lines 165-171). -/
def sasRequired (tri1 tri2 : List String) (v : Nat) : List Statement :=
  let v1 := (v + 1) % 3
  let v2 := (v + 2) % 3
  [⟨.segmentEqualsSegment,
     [tri1.getD v "", tri1.getD v1 "", tri2.getD v "", tri2.getD v1 ""], none⟩,
   ⟨.segmentEqualsSegment,
     [tri1.getD v "", tri1.getD v2 "", tri2.getD v "", tri2.getD v2 ""], none⟩,
   ⟨.angleEqualsAngle,
     [tri1.getD v2 "", tri1.getD v "", tri1.getD v1 "",
      tri2.getD v2 "", tri2.getD v "", tri2.getD v1 ""], none⟩]

/-- The SAS permutation/rotation search (verify.ts lines 160-183). -/
def sasSearch (prereqStatements : List Statement) (outcomeNames : List String) : Bool :=
  TRIANGLE_SECOND_PERMS.any fun perm =>
    [0, 1, 2].any fun v =>
      matchRequired prereqStatements (sasRequired (tri1Of outcomeNames) (tri2Of outcomeNames perm) v)

/-- ASA required premises (verify.ts lines 200-204). -/
def asaRequired (tri1 tri2 : List String) : List Statement :=
  [⟨.angleEqualsAngle,
     [tri1.getD 2 "", tri1.getD 0 "", tri1.getD 1 "",
      tri2.getD 2 "", tri2.getD 0 "", tri2.getD 1 ""], none⟩,
   ⟨.segmentEqualsSegment,
     [tri1.getD 0 "", tri1.getD 1 "", tri2.getD 0 "", tri2.getD 1 ""], none⟩,
   ⟨.angleEqualsAngle,
     [tri1.getD 0 "", tri1.getD 1 "", tri1.getD 2 "",
      tri2.getD 0 "", tri2.getD 1 "", tri2.getD 2 ""], none⟩]

/-- AAS required premises (verify.ts lines 217-221). -/
def aasRequired (tri1 tri2 : List String) : List Statement :=
  [⟨.angleEqualsAngle,
     [tri1.getD 2 "", tri1.getD 0 "", tri1.getD 1 "",
      tri2.getD 2 "", tri2.getD 0 "", tri2.getD 1 ""], none⟩,
   ⟨.angleEqualsAngle,
     [tri1.getD 0 "", tri1.getD 1 "", tri1.getD 2 "",
      tri2.getD 0 "", tri2.getD 1 "", tri2.getD 2 ""], none⟩,
   ⟨.segmentEqualsSegment,
     [tri1.getD 1 "", tri1.getD 2 "", tri2.getD 1 "", tri2.getD 2 ""], none⟩]

/-- The three corresponding-side equalities of a congruence (verify.ts lines
234-238 and 285-289). -/
def correspondingSides (tri1 tri2 : List String) : List Statement :=
  [⟨.segmentEqualsSegment,
     [tri1.getD 0 "", tri1.getD 1 "", tri2.getD 0 "", tri2.getD 1 ""], none⟩,
   ⟨.segmentEqualsSegment,
     [tri1.getD 1 "", tri1.getD 2 "", tri2.getD 1 "", tri2.getD 2 ""], none⟩,
   ⟨.segmentEqualsSegment,
     [tri1.getD 2 "", tri1.getD 0 "", tri2.getD 2 "", tri2.getD 0 ""], none⟩]

/-- SSS uses the corresponding sides as its required premises (verify.ts
lines 234-238). -/
def sssRequired (tri1 tri2 : List String) : List Statement :=
  correspondingSides tri1 tri2

/-- A permutation search for a triangle-congruence criterion with plain
structural matching (verify.ts `asa`/`aas`/`sss` loops). -/
def triangleSearch (required : List String → List String → List Statement)
    (prereqStatements : List Statement) (outcomeNames : List String) : Bool :=
  TRIANGLE_SECOND_PERMS.any fun perm =>
    matchRequired prereqStatements (required (tri1Of outcomeNames) (tri2Of outcomeNames perm))

/-- `angle90` (verify.ts lines 248-249): an angle-equals-constant whose
constant is absent (`== null`) or exactly 90. -/
def angle90 (p : Statement) : Bool :=
  p.kind == StatementKind.angleEqualsConstant &&
    (p.constant == none || p.constant == some 90)

/-- The HL `findIndex` predicate (verify.ts lines 261-265): a right-angle
slot additionally requires `angle90`. -/
def hlPremiseMatches (p req : Statement) : Bool :=
  if req.kind == StatementKind.angleEqualsConstant && !(angle90 p) then false
  else statementsEqualStructural p req

/-- HL required premises (verify.ts lines 253-257). -/
def hlRequired (tri1 tri2 : List String) : List Statement :=
  [⟨.angleEqualsConstant, [tri1.getD 0 "", tri1.getD 1 "", tri1.getD 2 ""], some 90⟩,
   ⟨.angleEqualsConstant, [tri2.getD 0 "", tri2.getD 1 "", tri2.getD 2 ""], some 90⟩,
   ⟨.segmentEqualsSegment,
     [tri1.getD 0 "", tri1.getD 2 "", tri2.getD 0 "", tri2.getD 2 ""], none⟩,
   ⟨.segmentEqualsSegment,
     [tri1.getD 0 "", tri1.getD 1 "", tri2.getD 0 "", tri2.getD 1 ""], none⟩]

/-- The HL permutation search (verify.ts lines 246-272). -/
def hlSearch (prereqStatements : List Statement) (outcomeNames : List String) : Bool :=
  TRIANGLE_SECOND_PERMS.any fun perm =>
    matchRequiredWith hlPremiseMatches prereqStatements
      (hlRequired (tri1Of outcomeNames) (tri2Of outcomeNames perm)) []

/-- The `'from-congruence'` branch (verify.ts lines 274-295). -/
def fromCongruenceBranch (prereqStatements : List Statement) (outcome : Statement) :
    VerifyResult :=
  if outcome.kind != StatementKind.segmentEqualsSegment || outcome.pointNames.length < 4 then
    ⟨false, "Conclusion must be a segment equality (e.g. AB = DE)."⟩
  else
    let triPrereqs := prereqStatements.filter
      (fun s => s.kind == StatementKind.trianglesCongruent && s.pointNames.length ≥ 6)
    let outcomeKey := segmentStatementKey outcome
    if triPrereqs.any (fun tp =>
        TRIANGLE_SECOND_PERMS.any fun perm =>
          (correspondingSides (tri1Of tp.pointNames) (tri2Of tp.pointNames perm)).any
            (fun s => segmentStatementKey s == outcomeKey)) then
      ⟨true, statementToString outcome⟩
    else
      ⟨false, "Conclusion must be a pair of corresponding sides from a triangle congruence prerequisite."⟩

def chainReasonIds : List String :=
  ["transitivity-less", "transitivity-greater", "transitivity-leq", "transitivity-geq"]

/-- One pass of the generic matcher over the reason's premise templates
(verify.ts lines 318-338): substitute each premise by occurrence order
against the chosen outcome naming and look it up among the prerequisites.
Returns the error message of the first failing premise, or `none` when all
premises matched.  When the counter is not shared, the TS code clears the
`used` map at the top of each iteration. -/
def genericPremiseLoop (conclNames names : List String) (prereqStatements : List Statement)
    (useShared : Bool) : List Statement → Nat → (String → Nat) → Option String
  | [], _, _ => none
  | prem :: rest, i, used =>
    let used0 : String → Nat := if useShared then used else fun _ => 0
    match substitutePremiseByOccurrence prem conclNames names used0 with
    | none => some ("Prerequisite " ++ toString (i + 1) ++ ": could not match to conclusion.")
    | some (st, usedNext) =>
      if prereqStatements.any (fun p => statementsEqualStructural p st) then
        genericPremiseLoop conclNames names prereqStatements useShared rest (i + 1) usedNext
      else
        let hint : String :=
          if st.kind == StatementKind.angleEqualsConstant then
            " For this use of the rule you need two steps stating each angle in your conclusion equals the same measure (e.g. 90°, 45°)."
          else ""
        some ("Prerequisite " ++ toString (i + 1) ++ ": need a step stating \"" ++
          statementToString st ++ "\" (order of prerequisites does not matter)." ++ hint)

/-- The loop over admissible outcome namings (verify.ts lines 317-341),
keeping the last attempt's error message. -/
def genericTryLoop (premises : List Statement) (conclNames : List String)
    (prereqStatements : List Statement) (useShared : Bool) (outcome : Statement) :
    List (List String) → Option String → VerifyResult
  | [], lastError => ⟨false, lastError.getD ("Prerequisites do not match.")⟩
  | names :: rest, lastError =>
    match genericPremiseLoop conclNames names prereqStatements useShared premises 0
        (fun _ => 0) with
    | none => ⟨true, statementToString outcome⟩
    | some err =>
      genericTryLoop premises conclNames prereqStatements useShared outcome rest (some err)

def dummyStatement : Statement := ⟨.pointsDistinct, [], none⟩

/-- Everything `verifyStep` does after resolving the prerequisite statements
(verify.ts lines 108-341). -/
def verifyWithPrereqs (reasonId : String) (reason : ReasonSchema) (outcome : Statement)
    (prereqStatements : List Statement) : VerifyResult :=
  if prereqStatements.length < reason.premises.length then
    ⟨false, "This reason requires " ++ toString reason.premises.length ++ " prerequisite(s)."⟩
  else if reasonId == "transitivity-equals" && decide (2 ≤ prereqStatements.length) &&
      (prereqStatements.get? 0).map Statement.kind == some StatementKind.angleEqualsAngle &&
      (prereqStatements.get? 1).map Statement.kind == some StatementKind.angleEqualsAngle then
    chainCore StatementKind.angleEqualsAngle
      "Conclusion should be: angle-equals-angle (first angle of prerequisite 1, second of prerequisite 2)."
      (prereqStatements.getD 0 dummyStatement) (prereqStatements.getD 1 dummyStatement) outcome
  else if chainReasonIds.contains reasonId then
    chainBranch reason prereqStatements outcome
  else if reasonId == "sas" && outcome.kind == StatementKind.trianglesCongruent &&
      outcome.pointNames.length == 6 then
    if sasSearch prereqStatements outcome.pointNames then ⟨true, statementToString outcome⟩
    else
      ⟨false, "No valid SAS combination: need two sides and the included angle equal under the same correspondence."⟩
  else if reasonId == "asa" && outcome.kind == StatementKind.trianglesCongruent &&
      outcome.pointNames.length == 6 then
    if triangleSearch asaRequired prereqStatements outcome.pointNames then
      ⟨true, statementToString outcome⟩
    else ⟨false, "No valid ASA: need two angles and the included side under the same correspondence."⟩
  else if reasonId == "aas" && outcome.kind == StatementKind.trianglesCongruent &&
      outcome.pointNames.length == 6 then
    if triangleSearch aasRequired prereqStatements outcome.pointNames then
      ⟨true, statementToString outcome⟩
    else ⟨false, "No valid AAS: need two angles and a non-included side under the same correspondence."⟩
  else if reasonId == "sss" && outcome.kind == StatementKind.trianglesCongruent &&
      outcome.pointNames.length == 6 then
    if triangleSearch sssRequired prereqStatements outcome.pointNames then
      ⟨true, statementToString outcome⟩
    else ⟨false, "No valid SSS: need all three sides equal under the same correspondence."⟩
  else if reasonId == "hl" && outcome.kind == StatementKind.trianglesCongruent &&
      outcome.pointNames.length == 6 then
    if hlSearch prereqStatements outcome.pointNames then ⟨true, statementToString outcome⟩
    else
      ⟨false, "No valid HL: need right angles at corresponding vertices, hypotenuse and one leg equal."⟩
  else if reasonId == "from-congruence" then
    fromCongruenceBranch prereqStatements outcome
  else if outcome.kind != reason.conclusion.kind ||
      outcome.pointNames.length != reason.conclusion.pointNames.length then
    ⟨false, "Conclusion should be: " ++ statementToString reason.conclusion ++ " (with your point names)."⟩
  else
    let useShared := reasonId == "transitivity-equals" && reason.premises.length == 2 &&
      (reason.premises.get? 0).map Statement.kind == some StatementKind.angleEqualsConstant &&
      (reason.premises.get? 1).map Statement.kind == some StatementKind.angleEqualsConstant
    let names := outcome.pointNames
    let toTry : List (List String) :=
      if outcome.kind == StatementKind.trianglesCongruent && names.length == 6 then
        TRIANGLE_SECOND_PERMS.map (fun p => tri1Of names ++ tri2Of names p)
      else [names]
    genericTryLoop reason.premises reason.conclusion.pointNames prereqStatements useShared
      outcome toTry none

/-- The step verifier (verify.ts, `verifyStep`).  `check` abstracts
`checkStatement ctx` (check.ts, floating-point numeric checking over the
resolved context).  The result is `none` exactly when the JS function
throws. -/
def verifyStep (check : Statement → Bool) (step : ProofStep)
    (previousSteps : List ProofStep) (taskGivens : List Statement) : Option VerifyResult :=
  let stepIndex := previousSteps.length + 1
  if step.reasonId == REASON_GIVEN then some (givenBranch step.outcome taskGivens)
  else if step.reasonId == REASON_DEFINITION then some (definitionBranch check step.outcome)
  else
    match REASONS.find? (fun r => r.id == step.reasonId) with
    | none => some unknownReasonResult
    | some reason =>
      if reason.disabled then some unknownReasonResult
      else if step.reasonId == "reflexivity" then some (verifyReflexivity step.outcome)
      else if step.reasonId == "thales" then some (verifyThales step.outcome)
      else if step.reasonId == "sum-triangle-angles" then some (verifySumAngles step.outcome)
      else
        (getPrerequisiteStatements stepIndex step.prerequisiteRefs previousSteps taskGivens).map
          (verifyWithPrereqs step.reasonId reason step.outcome)

/-- Whether an embedded `verifyStep` call returned normally with `ok: true`. -/
def okOf : Option VerifyResult → Bool
  | some v => v.ok
  | none => false

theorem char_eq_of_toNat_eq {a b : Char} (h : a.toNat = b.toNat) : a = b :=
  Char.ext (UInt32.ext h)

theorem strLtCL_asymm : ∀ x y, strLtCL x y = true → strLtCL y x = false := by
  intro x
  induction x with
  | nil =>
    intro y h
    cases y with
    | nil => simp [strLtCL] at h
    | cons b bs => simp [strLtCL]
  | cons a as ih =>
    intro y h
    cases y with
    | nil => simp [strLtCL] at h
    | cons b bs =>
      simp only [strLtCL] at h ⊢
      by_cases hab : a.toNat < b.toNat
      · have hba : ¬ b.toNat < a.toNat := Nat.lt_asymm hab
        simp [hab, hba]
      · by_cases hba : b.toNat < a.toNat
        · simp [hab, hba] at h
        · simp only [if_neg hab, if_neg hba] at h ⊢
          exact ih bs h

theorem strLtCL_eq_of_not : ∀ x y, strLtCL x y = false → strLtCL y x = false → x = y := by
  intro x
  induction x with
  | nil =>
    intro y h1 _
    cases y with
    | nil => rfl
    | cons b bs => simp [strLtCL] at h1
  | cons a as ih =>
    intro y h1 h2
    cases y with
    | nil => simp [strLtCL] at h2
    | cons b bs =>
      simp only [strLtCL] at h1 h2
      by_cases hab : a.toNat < b.toNat
      · simp [hab] at h1
      · by_cases hba : b.toNat < a.toNat
        · simp [hba] at h2
        · have hc : a = b :=
            char_eq_of_toNat_eq (Nat.le_antisymm (Nat.not_lt.mp hba) (Nat.not_lt.mp hab))
          simp only [if_neg hab, if_neg hba] at h1
          simp only [if_neg hba, if_neg hab] at h2
          rw [hc, ih bs h1 h2]

theorem string_eq_of_data {s t : String} (h : s.data = t.data) : s = t := by
  cases s; cases t; cases h; rfl

theorem jsLt_asymm {a b : String} (h : jsLt a b = true) : jsLt b a = false :=
  strLtCL_asymm a.data b.data h

theorem jsLt_eq_of_not {a b : String} (h1 : jsLt a b = false) (h2 : jsLt b a = false) : a = b :=
  string_eq_of_data (strLtCL_eq_of_not a.data b.data h1 h2)

/-- The sorted pair join used inside the segment/angle keys is symmetric in
its two arguments. -/
theorem jsPairJoin_comm (sep : String) (a b : String) :
    (if jsLt a b then a else b) ++ sep ++ (if jsLt a b then b else a) =
    (if jsLt b a then b else a) ++ sep ++ (if jsLt b a then a else b) := by
  by_cases hab : jsLt a b = true
  · simp [hab, jsLt_asymm hab]
  · by_cases hba : jsLt b a = true
    · simp [hab, hba]
    · have heq : a = b :=
        jsLt_eq_of_not (Bool.of_not_eq_true hab) (Bool.of_not_eq_true hba)
      rw [heq]

theorem jsPairIte_comm (a b sep : String) :
    (if jsLt a b then a ++ sep ++ b else b ++ sep ++ a) =
    (if jsLt b a then b ++ sep ++ a else a ++ sep ++ b) := by
  by_cases hab : jsLt a b = true
  · simp [hab, jsLt_asymm hab]
  · by_cases hba : jsLt b a = true
    · simp [hab, hba]
    · have heq : a = b :=
        jsLt_eq_of_not (Bool.of_not_eq_true hab) (Bool.of_not_eq_true hba)
      rw [heq]

theorem segmentStatementKey_swap (a b c d : String) :
    segmentStatementKey ⟨.segmentEqualsSegment, [a, b, c, d], none⟩ =
    segmentStatementKey ⟨.segmentEqualsSegment, [b, a, d, c], none⟩ := by
  simp only [segmentStatementKey]
  norm_num [List.getD]
  rw [jsPairJoin_comm "," a b, jsPairJoin_comm "," c d]

theorem angleTripleKey_swap (p0 p1 p2 : String) :
    angleTripleKey p0 p1 p2 = angleTripleKey p2 p1 p0 := by
  simp only [angleTripleKey]
  rw [jsPairIte_comm p0 p2 ","]

theorem angleStatementKey_sideswap (a m b c n d : String) :
    angleStatementKey ⟨.angleEqualsAngle, [a, m, b, c, n, d], none⟩ =
    angleStatementKey ⟨.angleEqualsAngle, [c, n, d, a, m, b], none⟩ := by
  simp only [angleStatementKey]
  norm_num [List.getD]
  rw [jsPairIte_comm]

theorem angleStatementKey_armswap (a m b c n d : String) :
    angleStatementKey ⟨.angleEqualsAngle, [a, m, b, c, n, d], none⟩ =
    angleStatementKey ⟨.angleEqualsAngle, [b, m, a, c, n, d], none⟩ := by
  simp only [angleStatementKey]
  norm_num [List.getD]
  rw [angleTripleKey_swap a m b]

/-- C5. Structural equality respects the documented symmetries: endpoint
swap on both segments of a segment equality; side swap of an angle equality;
arm swap at a fixed vertex of one side of an angle equality. -/
theorem c5_structural_equality_symmetries (a b c d m n : String) :
    statementsEqualStructural ⟨.segmentEqualsSegment, [a, b, c, d], none⟩
      ⟨.segmentEqualsSegment, [b, a, d, c], none⟩ = true ∧
    statementsEqualStructural ⟨.angleEqualsAngle, [a, m, b, c, n, d], none⟩
      ⟨.angleEqualsAngle, [c, n, d, a, m, b], none⟩ = true ∧
    statementsEqualStructural ⟨.angleEqualsAngle, [a, m, b, c, n, d], none⟩
      ⟨.angleEqualsAngle, [b, m, a, c, n, d], none⟩ = true := by
  refine ⟨?_, ?_, ?_⟩
  · simp [statementsEqualStructural, segmentStatementKey_swap a b c d]
  · simp [statementsEqualStructural, angleStatementKey_sideswap a m b c n d]
  · simp [statementsEqualStructural, angleStatementKey_armswap a m b c n d]

/-- Modelled from the claim: the outcome shapes the reflexivity reason
accepts — a segment-equals-segment with 4 names where name 1 = name 3 and
name 2 = name 4, or an angle-equals-angle with 6 names whose first triple
equals the second positionally; every other outcome is rejected. -/
def reflexivityAcceptSpec (o : Statement) : Bool :=
  if o.kind == StatementKind.segmentEqualsSegment && o.pointNames.length == 4 then
    o.pointNames.get? 0 == o.pointNames.get? 2 && o.pointNames.get? 1 == o.pointNames.get? 3
  else if o.kind == StatementKind.angleEqualsAngle && o.pointNames.length == 6 then
    o.pointNames.get? 0 == o.pointNames.get? 3 && o.pointNames.get? 1 == o.pointNames.get? 4 &&
      o.pointNames.get? 2 == o.pointNames.get? 5
  else false

theorem verifyReflexivity_ok (o : Statement) :
    (verifyReflexivity o).ok = reflexivityAcceptSpec o := by
  unfold verifyReflexivity reflexivityAcceptSpec
  split_ifs with h1 h2 h3 h4
  · simp only [VerifyResult.ok]
    simpa using h2
  · simp only [VerifyResult.ok]
    simpa using h2
  · simp only [VerifyResult.ok]
    simpa using h4
  · simp only [VerifyResult.ok]
    simpa using h4
  · rfl

/-- C6. The reflexivity reason accepts exactly the claimed shapes, and its
verdict does not depend on the resolved context (the numeric-checker
oracle). -/
theorem c6_reflexivity_gate (check check2 : Statement → Bool) (o : Statement)
    (refs : List PrerequisiteRef) (prev : List ProofStep) (givens : List Statement) :
    verifyStep check ⟨o, "reflexivity", refs⟩ prev givens =
      verifyStep check2 ⟨o, "reflexivity", refs⟩ prev givens ∧
    okOf (verifyStep check ⟨o, "reflexivity", refs⟩ prev givens) = reflexivityAcceptSpec o := by
  constructor
  · rfl
  · show okOf (some (verifyReflexivity o)) = _
    simpa [okOf] using verifyReflexivity_ok o

theorem givenBranch_ok (o : Statement) (givens : List Statement) :
    (givenBranch o givens).ok =
      (givens.isEmpty || givens.any (fun g => statementsEqual g o)) := by
  unfold givenBranch
  split_ifs with h1 h2
  · rw [h1, Bool.true_or]
  · rw [h2, Bool.or_true]
  · rw [Bool.of_not_eq_true h1, Bool.of_not_eq_true h2]
    rfl

/-- C7. The `given` reason accepts everything when the task-given list is
empty; otherwise it accepts exactly the outcomes plainly equal (same kind,
positionally identical names) to some given — in particular a given segment
equality cited with swapped endpoints is rejected. -/
theorem c7_given_reason :
    (∀ (check : Statement → Bool) (o : Statement) (refs : List PrerequisiteRef)
        (prev : List ProofStep) (givens : List Statement),
      okOf (verifyStep check ⟨o, REASON_GIVEN, refs⟩ prev givens) =
        (givens.isEmpty || givens.any (fun g => statementsEqual g o))) ∧
    okOf (verifyStep (fun _ => false)
      ⟨⟨.segmentEqualsSegment, ["B", "A", "D", "C"], none⟩, REASON_GIVEN, []⟩ []
      [⟨.segmentEqualsSegment, ["A", "B", "C", "D"], none⟩]) = false := by
  constructor
  · intro check o refs prev givens
    show okOf (some (givenBranch o givens)) = _
    simpa [okOf] using givenBranch_ok o givens
  · decide

/-- C1. The claim says `verifyStep` never throws and that a numeric
prerequisite ref outside `[1, currentStepIndex-1]` contributes nothing.  The
code's guard admits `ref = currentStepIndex` (one past the last previous
step), reads `previousSteps[ref-1]` = `undefined`, and throws on `.outcome`:
at the concrete failing input below the embedding returns `none` (= thrown
TypeError).  Numeric refs that are 0 or exceed `currentStepIndex` are
indeed skipped. -/
theorem c1_current_index_ref_throws :
    verifyStep (fun _ => false)
      ⟨⟨.uniqueLine, ["A", "B"], none⟩, "line-determination", [.idx 1]⟩ [] [] = none ∧
    (∀ (prev : List ProofStep) (givens : List Statement) (k : Nat),
      getPrerequisiteStatements (prev.length + 1) [.idx 0] prev givens = some [] ∧
      getPrerequisiteStatements (prev.length + 1) [.idx (prev.length + 2 + k)] prev givens =
        some []) := by
  refine ⟨by decide, ?_⟩
  intro prev givens k
  constructor
  · rfl
  · simp only [getPrerequisiteStatements]
    rw [if_neg (by omega)]

/-- Required occurrences, walked the way the substitution routine consumes
them: for each placeholder of the premise in order, its current used counter
selects which occurrence in the conclusion template is required; the walk
succeeds when every such occurrence exists. -/
def occurrencesPresent (conclusionPointNames : List String) :
    List String → (String → Nat) → Bool
  | [], _ => true
  | ph :: rest, used =>
    decide (used ph < conclusionPointNames.count ph) &&
      occurrencesPresent conclusionPointNames rest (bumpUsed used ph (used ph))

theorem kthOccurrenceIdx_eq_none_iff (ph : String) :
    ∀ (l : List String) (k : Nat), kthOccurrenceIdx ph l k = none ↔ l.count ph ≤ k := by
  intro l
  induction l with
  | nil => intro k; simp [kthOccurrenceIdx]
  | cons c rest ih =>
    intro k
    simp only [kthOccurrenceIdx]
    by_cases hc : c = ph
    · subst hc
      rw [if_pos rfl]
      rcases Nat.eq_zero_or_pos k with hk | hk
      · subst hk
        simp [List.count_cons_self]
      · have hk0 : ¬ k = 0 := by omega
        rw [if_neg hk0, Option.map_eq_none', ih (k - 1), List.count_cons_self]
        omega
    · have hne : ph ≠ c := fun h => hc h.symm
      rw [if_neg hc, Option.map_eq_none', ih k, List.count_cons_of_ne hne]

theorem substPointsLoop_none_iff (concl out : List String) :
    ∀ (ps : List String) (used : String → Nat),
      substPointsLoop concl out ps used = none ↔ occurrencesPresent concl ps used = false := by
  intro ps
  induction ps with
  | nil => intro used; simp [substPointsLoop, occurrencesPresent]
  | cons ph rest ih =>
    intro used
    simp only [substPointsLoop, occurrencesPresent]
    cases hk : kthOccurrenceIdx ph concl (used ph) with
    | none =>
      have hcount : concl.count ph ≤ used ph := (kthOccurrenceIdx_eq_none_iff ph concl (used ph)).mp hk
      simp [Nat.not_lt.mpr hcount]
    | some i =>
      have hcount : ¬ concl.count ph ≤ used ph := by
        intro hle
        rw [(kthOccurrenceIdx_eq_none_iff ph concl (used ph)).mpr hle] at hk
        exact Option.noConfusion hk
      have hlt : used ph < concl.count ph := Nat.not_le.mp hcount
      simp only [decide_eq_true hlt, Bool.true_and]
      cases hrec : substPointsLoop concl out rest (bumpUsed used ph (used ph)) with
      | none => simp [(ih (bumpUsed used ph (used ph))).mp hrec]
      | some r =>
        have : occurrencesPresent concl rest (bumpUsed used ph (used ph)) = true := by
          by_contra hfalse
          have := (ih (bumpUsed used ph (used ph))).mpr (Bool.of_not_eq_true hfalse)
          rw [this] at hrec
          exact Option.noConfusion hrec
        simp [this]

/-- C3. Occurrence-based substitution: on the point-on-line-same-line schema
(premise `point-on-line [C,A,B]`, conclusion `line-equals-line [A,C,A,B]`)
with outcome names `[X,Y,X,Z]` and an empty used map it yields
`point-on-line [Y,X,Z]`; and for every premise, conclusion template, outcome
list and used map it returns `none` whenever some placeholder's required
occurrence does not exist in the conclusion template's placeholder list. -/
theorem c3_occurrence_substitution :
    (∀ X Y Z : String,
      (substitutePremiseByOccurrence ⟨.pointOnLine, ["C", "A", "B"], none⟩
        ["A", "C", "A", "B"] [X, Y, X, Z] (fun _ => 0)).map Prod.fst =
      some ⟨.pointOnLine, [Y, X, Z], none⟩) ∧
    (∀ (premise : Statement) (conclusionPointNames outcomePointNames : List String)
        (used : String → Nat),
      occurrencesPresent conclusionPointNames premise.pointNames used = false →
      substitutePremiseByOccurrence premise conclusionPointNames outcomePointNames used =
        none) := by
  constructor
  · intro X Y Z
    rfl
  · intro premise concl out used h
    unfold substitutePremiseByOccurrence
    rw [(substPointsLoop_none_iff concl out premise.pointNames used).mpr h]
    rfl

/-- Concrete instance of C3's second part: placeholder `D` has no occurrence
in the conclusion template `[A]`, so substitution fails. -/
theorem c3_occurrence_substitution_witness :
    occurrencesPresent ["A"] ["D"] (fun _ => 0) = false ∧
    substitutePremiseByOccurrence ⟨.pointOnLine, ["D"], none⟩ ["A"] ["X"] (fun _ => 0) = none :=
  ⟨by decide, c3_occurrence_substitution.2 ⟨.pointOnLine, ["D"], none⟩ ["A"] ["X"]
    (fun _ => 0) (by decide)⟩

theorem angleConstantStatementKey_armswap (a m c : String) (x y : Option ℚ) :
    angleConstantStatementKey ⟨.angleEqualsConstant, [a, m, c], x⟩ =
    angleConstantStatementKey ⟨.angleEqualsConstant, [c, m, a], y⟩ := by
  simp only [angleConstantStatementKey]
  norm_num [List.getD]
  rw [angleTripleKey_swap]

/-- C9. Structural equality of angle-equals-constant statements ignores the
numeric constant (and allows the arm swap), and occurrence-based
substitution drops the premise template's constant: every substituted
premise carries no constant. -/
theorem c9_constants_ignored :
    (∀ (a m c : String) (x y : Option ℚ),
      statementsEqualStructural ⟨.angleEqualsConstant, [a, m, c], x⟩
        ⟨.angleEqualsConstant, [a, m, c], y⟩ = true ∧
      statementsEqualStructural ⟨.angleEqualsConstant, [a, m, c], x⟩
        ⟨.angleEqualsConstant, [c, m, a], y⟩ = true) ∧
    (∀ (premise : Statement) (conclusionPointNames outcomePointNames : List String)
        (used : String → Nat) (st : Statement),
      (substitutePremiseByOccurrence premise conclusionPointNames outcomePointNames used).map
        Prod.fst = some st →
      st.constant = none) := by
  constructor
  · intro a m c x y
    constructor
    · simp [statementsEqualStructural, angleConstantStatementKey]
    · simp [statementsEqualStructural, angleConstantStatementKey_armswap a m c x y]
  · intro premise concl out used st h
    unfold substitutePremiseByOccurrence at h
    cases hl : substPointsLoop concl out premise.pointNames used with
    | none =>
      rw [hl] at h
      exact Option.noConfusion h
    | some r =>
      rw [hl] at h
      simp only [Option.map_some', Option.some_inj] at h
      rw [← h]

/-- Concrete instance of C9's substitution part: the substituted
point-on-line premise carries no constant. -/
theorem c9_constants_ignored_witness :
    (⟨.pointOnLine, ["Y", "X", "Z"], none⟩ : Statement).constant = none :=
  c9_constants_ignored.2 ⟨.pointOnLine, ["C", "A", "B"], none⟩ ["A", "C", "A", "B"]
    ["X", "Y", "X", "Z"] (fun _ => 0) ⟨.pointOnLine, ["Y", "X", "Z"], none⟩ rfl

/-- The four ordering chain reasons with their conclusion kinds. -/
def chainConclusionKinds : List (String × StatementKind) :=
  [("transitivity-less", .angleLessThanAngle),
   ("transitivity-greater", .angleGreaterThanAngle),
   ("transitivity-leq", .angleLeqAngle),
   ("transitivity-geq", .angleGeqAngle)]

/-- Acceptance condition of the bespoke chain matcher, in the claim's terms:
the second triple of prerequisite 1 equals (positionally) the first triple
of prerequisite 2, and the outcome is of the chain kind with six names that
are prerequisite 1's first triple followed by prerequisite 2's second
triple.  Name reads are `get?`, mirroring the unchecked JS indexing. -/
def chainAccepts (K : StatementKind) (p0 p1 o : Statement) : Prop :=
  p0.pointNames.get? 3 = p1.pointNames.get? 0 ∧
  p0.pointNames.get? 4 = p1.pointNames.get? 1 ∧
  p0.pointNames.get? 5 = p1.pointNames.get? 2 ∧
  o.kind = K ∧ o.pointNames.length = 6 ∧
  o.pointNames.get? 0 = p0.pointNames.get? 0 ∧
  o.pointNames.get? 1 = p0.pointNames.get? 1 ∧
  o.pointNames.get? 2 = p0.pointNames.get? 2 ∧
  o.pointNames.get? 3 = p1.pointNames.get? 3 ∧
  o.pointNames.get? 4 = p1.pointNames.get? 4 ∧
  o.pointNames.get? 5 = p1.pointNames.get? 5

theorem chainCore_ok_iff (K : StatementKind) (msg : String) (p0 p1 o : Statement) :
    (chainCore K msg p0 p1 o).ok = true ↔ chainAccepts K p0 p1 o := by
  unfold chainCore chainAccepts
  split_ifs with h1 h2 h3 <;> simp_all <;> tauto

theorem chainBranch_ok_iff (reason : ReasonSchema) (ps : List Statement) (o : Statement) :
    (chainBranch reason ps o).ok = true ↔
      ∃ p0 p1, ps.get? 0 = some p0 ∧ ps.get? 1 = some p1 ∧
        p0.kind = reason.conclusion.kind ∧ p1.kind = reason.conclusion.kind ∧
        chainAccepts reason.conclusion.kind p0 p1 o := by
  unfold chainBranch
  cases hp0 : ps.get? 0 with
  | none => simp [hp0]
  | some p0 =>
    cases hp1 : ps.get? 1 with
    | none => simp [hp0, hp1]
    | some p1 =>
      dsimp only
      split_ifs with hkind
      · constructor
        · intro h
          exact absurd h (by simp)
        · rintro ⟨q0, q1, hq0, hq1, hk0, hk1, _⟩
          rw [Option.some_inj] at hq0 hq1
          subst hq0; subst hq1
          simp only [Bool.or_eq_true, bne_iff_ne, ne_eq] at hkind
          rcases hkind with h | h <;> exact absurd (by assumption) h
      · rw [chainCore_ok_iff]
        constructor
        · intro h
          refine ⟨p0, p1, rfl, rfl, ?_, ?_, h⟩ <;>
            simp only [Bool.or_eq_true, bne_iff_ne, ne_eq, not_or] at hkind <;>
            tauto
        · rintro ⟨q0, q1, hq0, hq1, _, _, hacc⟩
          rw [Option.some_inj] at hq0
          rw [Option.some_inj] at hq1
          subst hq0; subst hq1
          exact hacc

/-- Plumbing: for a reason that is none of the specially handled ids,
`verifyStep` resolves the prerequisites and hands off to
`verifyWithPrereqs`. -/
theorem verifyStep_eq_withPrereqs (rid : String) (reason : ReasonSchema)
    (hfind : REASONS.find? (fun r => r.id == rid) = some reason)
    (hg : (rid == REASON_GIVEN) = false) (hd : (rid == REASON_DEFINITION) = false)
    (hr : (rid == "reflexivity") = false) (ht : (rid == "thales") = false)
    (hs : (rid == "sum-triangle-angles") = false) (hdis : reason.disabled = false)
    (check : Statement → Bool) (o : Statement) (refs : List PrerequisiteRef)
    (prev : List ProofStep) (givens : List Statement) :
    verifyStep check ⟨o, rid, refs⟩ prev givens =
      (getPrerequisiteStatements (prev.length + 1) refs prev givens).map
        (verifyWithPrereqs rid reason o) := by
  unfold verifyStep
  simp only [hg, hd, hfind, hdis, hr, ht, hs, Bool.false_eq_true, if_false]

/-- Plumbing: for a chain reason the post-resolution work is the count check
followed by the bespoke chain branch. -/
theorem verifyWithPrereqs_chain_eq (rid : String) (reason : ReasonSchema) (o : Statement)
    (ps : List Statement) (h1 : (rid == "transitivity-equals") = false)
    (h2 : chainReasonIds.contains rid = true) :
    verifyWithPrereqs rid reason o ps =
      if ps.length < reason.premises.length then
        ⟨false, "This reason requires " ++ toString reason.premises.length ++
          " prerequisite(s)."⟩
      else chainBranch reason ps o := by
  unfold verifyWithPrereqs
  simp only [h1, h2, Bool.false_and, Bool.false_eq_true, if_false, if_true]

/-- Catalog access by position (the four chain schemas sit at indices 7-10,
`transitivity-equals` at index 6). -/
def reasonAt (i : Nat) : ReasonSchema :=
  REASONS.getD i ⟨"", "", "", [], dummyStatement, true⟩

theorem chain_ok_iff_aux (rid : String) (i : Nat) (K : StatementKind)
    (hfind : REASONS.find? (fun r => r.id == rid) = some (reasonAt i))
    (hg : (rid == REASON_GIVEN) = false) (hd : (rid == REASON_DEFINITION) = false)
    (hr : (rid == "reflexivity") = false) (ht : (rid == "thales") = false)
    (hs : (rid == "sum-triangle-angles") = false) (hdis : (reasonAt i).disabled = false)
    (hne : (rid == "transitivity-equals") = false) (hch : chainReasonIds.contains rid = true)
    (hk : (reasonAt i).conclusion.kind = K) (hp : (reasonAt i).premises.length = 2)
    (check : Statement → Bool) (o : Statement) (refs : List PrerequisiteRef)
    (prev : List ProofStep) (givens : List Statement) (ps : List Statement)
    (hres : getPrerequisiteStatements (prev.length + 1) refs prev givens = some ps) :
    okOf (verifyStep check ⟨o, rid, refs⟩ prev givens) = true ↔
      ∃ p0 p1, ps.get? 0 = some p0 ∧ ps.get? 1 = some p1 ∧
        p0.kind = K ∧ p1.kind = K ∧ chainAccepts K p0 p1 o := by
  rw [verifyStep_eq_withPrereqs rid (reasonAt i) hfind hg hd hr ht hs hdis check o refs
    prev givens, hres]
  simp only [Option.map_some', okOf]
  rw [verifyWithPrereqs_chain_eq rid (reasonAt i) o ps hne hch]
  by_cases hlen : ps.length < (reasonAt i).premises.length
  · rw [if_pos hlen]
    constructor
    · intro h
      exact absurd h (by simp)
    · rintro ⟨p0, p1, hq0, hq1, -⟩
      have h1lt : 1 < ps.length := (List.get?_eq_some.mp hq1).1
      omega
  · rw [if_neg hlen, chainBranch_ok_iff, hk]

/-- C2 (amended).  For the four ordering chain reasons the bespoke matcher
decides acceptance exactly as the claim states (with the first two resolved
prerequisite statements in the roles of the two cited prerequisites).  For
`transitivity-equals`, the bespoke matcher applies only when the first two
resolved prerequisites are both angle-equals-angle statements; in that case
acceptance is exactly as the claim states.  (When they are not, the step
falls through to the generic occurrence-substitution matcher instead of
being rejected — see the counterexample.) -/
theorem c2_chain_matchers :
    (∀ (rid : String) (K : StatementKind), (rid, K) ∈ chainConclusionKinds →
      ∀ (check : Statement → Bool) (o : Statement) (refs : List PrerequisiteRef)
        (prev : List ProofStep) (givens : List Statement) (ps : List Statement),
      getPrerequisiteStatements (prev.length + 1) refs prev givens = some ps →
      (okOf (verifyStep check ⟨o, rid, refs⟩ prev givens) = true ↔
        ∃ p0 p1, ps.get? 0 = some p0 ∧ ps.get? 1 = some p1 ∧
          p0.kind = K ∧ p1.kind = K ∧ chainAccepts K p0 p1 o)) ∧
    (∀ (check : Statement → Bool) (o : Statement) (refs : List PrerequisiteRef)
        (prev : List ProofStep) (givens : List Statement) (ps : List Statement)
        (p0 p1 : Statement),
      getPrerequisiteStatements (prev.length + 1) refs prev givens = some ps →
      ps.get? 0 = some p0 → ps.get? 1 = some p1 →
      p0.kind = StatementKind.angleEqualsAngle → p1.kind = StatementKind.angleEqualsAngle →
      (okOf (verifyStep check ⟨o, "transitivity-equals", refs⟩ prev givens) = true ↔
        chainAccepts StatementKind.angleEqualsAngle p0 p1 o)) := by
  constructor
  · intro rid K hmem check o refs prev givens ps hres
    simp only [chainConclusionKinds, List.mem_cons, List.not_mem_nil, or_false] at hmem
    rcases hmem with h | h | h | h <;>
      (rw [Prod.mk.injEq] at h; obtain ⟨rfl, rfl⟩ := h)
    · exact chain_ok_iff_aux "transitivity-less" 7 _ rfl rfl rfl rfl rfl rfl rfl rfl rfl rfl rfl
        check o refs prev givens ps hres
    · exact chain_ok_iff_aux "transitivity-greater" 8 _ rfl rfl rfl rfl rfl rfl rfl rfl rfl rfl rfl
        check o refs prev givens ps hres
    · exact chain_ok_iff_aux "transitivity-leq" 9 _ rfl rfl rfl rfl rfl rfl rfl rfl rfl rfl rfl
        check o refs prev givens ps hres
    · exact chain_ok_iff_aux "transitivity-geq" 10 _ rfl rfl rfl rfl rfl rfl rfl rfl rfl rfl rfl
        check o refs prev givens ps hres
  · intro check o refs prev givens ps p0 p1 hres hp0 hp1 hk0 hk1
    rw [verifyStep_eq_withPrereqs "transitivity-equals" (reasonAt 6) rfl rfl rfl rfl rfl rfl
      rfl check o refs prev givens, hres]
    simp only [Option.map_some', okOf]
    have h1lt : 1 < ps.length := (List.get?_eq_some.mp hp1).1
    unfold verifyWithPrereqs
    rw [if_neg (by
      have : (reasonAt 6).premises.length = 2 := rfl
      omega)]
    rw [if_pos (by
      rw [hp0, hp1]
      simp only [Option.map_some', hk0, hk1]
      simp only [decide_eq_true (show 2 ≤ ps.length by omega)]
      simp)]
    have e0 : ps.getD 0 dummyStatement = p0 := by
      have : ps.getD 0 dummyStatement = (ps.get? 0).getD dummyStatement := rfl
      rw [this, hp0]
      rfl
    have e1 : ps.getD 1 dummyStatement = p1 := by
      have : ps.getD 1 dummyStatement = (ps.get? 1).getD dummyStatement := rfl
      rw [this, hp1]
      rfl
    rw [e0, e1, chainCore_ok_iff]

/-- C2 counterexample: with reason `transitivity-equals`, two resolved
prerequisites that are angle-equals-constant statements (not the expected
angle-equals-angle shape) are accepted through the generic matcher, so "any
other shape of prerequisites is rejected" fails as stated. -/
theorem c2_chain_matchers_counterexample :
    okOf (verifyStep (fun _ => false)
      ⟨⟨.angleEqualsAngle, ["P", "Q", "R", "S", "T", "U"], none⟩, "transitivity-equals",
        [.idx 1, .idx 2]⟩
      [⟨⟨.angleEqualsConstant, ["P", "Q", "R"], some 40⟩, REASON_GIVEN, []⟩,
       ⟨⟨.angleEqualsConstant, ["S", "T", "U"], some 40⟩, REASON_GIVEN, []⟩] []) = true ∧
    (⟨.angleEqualsConstant, ["P", "Q", "R"], some 40⟩ : Statement).kind ≠
      StatementKind.angleEqualsAngle := by
  constructor
  · decide
  · decide

/-- Concrete instances of C2's two amended parts: an accepted
transitivity-less chain and an accepted transitivity-equals step whose two
prerequisites are angle-equals-angle statements. -/
theorem c2_chain_matchers_witness :
    okOf (verifyStep (fun _ => false)
      ⟨⟨.angleLessThanAngle, ["A", "M", "B", "E", "Q", "F"], none⟩, "transitivity-less",
        [.idx 1, .idx 2]⟩
      [⟨⟨.angleLessThanAngle, ["A", "M", "B", "C", "N", "D"], none⟩, REASON_GIVEN, []⟩,
       ⟨⟨.angleLessThanAngle, ["C", "N", "D", "E", "Q", "F"], none⟩, REASON_GIVEN, []⟩]
      []) = true ∧
    okOf (verifyStep (fun _ => false)
      ⟨⟨.angleEqualsAngle, ["A", "M", "C", "X", "Y", "Z"], none⟩, "transitivity-equals",
        [.idx 1, .idx 2]⟩
      [⟨⟨.angleEqualsAngle, ["A", "M", "C", "A", "M", "B"], none⟩, REASON_GIVEN, []⟩,
       ⟨⟨.angleEqualsAngle, ["A", "M", "B", "X", "Y", "Z"], none⟩, REASON_GIVEN, []⟩]
      []) = true := by
  constructor
  · exact (c2_chain_matchers.1 "transitivity-less" StatementKind.angleLessThanAngle
      (by decide) (fun _ => false)
      ⟨.angleLessThanAngle, ["A", "M", "B", "E", "Q", "F"], none⟩
      [.idx 1, .idx 2]
      [⟨⟨.angleLessThanAngle, ["A", "M", "B", "C", "N", "D"], none⟩, REASON_GIVEN, []⟩,
       ⟨⟨.angleLessThanAngle, ["C", "N", "D", "E", "Q", "F"], none⟩, REASON_GIVEN, []⟩]
      []
      [⟨.angleLessThanAngle, ["A", "M", "B", "C", "N", "D"], none⟩,
       ⟨.angleLessThanAngle, ["C", "N", "D", "E", "Q", "F"], none⟩]
      rfl).mpr
      ⟨⟨.angleLessThanAngle, ["A", "M", "B", "C", "N", "D"], none⟩,
       ⟨.angleLessThanAngle, ["C", "N", "D", "E", "Q", "F"], none⟩,
       rfl, rfl, rfl, rfl, rfl, rfl, rfl, rfl, rfl, rfl, rfl, rfl, rfl, rfl, rfl⟩
  · exact (c2_chain_matchers.2 (fun _ => false)
      ⟨.angleEqualsAngle, ["A", "M", "C", "X", "Y", "Z"], none⟩
      [.idx 1, .idx 2]
      [⟨⟨.angleEqualsAngle, ["A", "M", "C", "A", "M", "B"], none⟩, REASON_GIVEN, []⟩,
       ⟨⟨.angleEqualsAngle, ["A", "M", "B", "X", "Y", "Z"], none⟩, REASON_GIVEN, []⟩]
      []
      [⟨.angleEqualsAngle, ["A", "M", "C", "A", "M", "B"], none⟩,
       ⟨.angleEqualsAngle, ["A", "M", "B", "X", "Y", "Z"], none⟩]
      ⟨.angleEqualsAngle, ["A", "M", "C", "A", "M", "B"], none⟩
      ⟨.angleEqualsAngle, ["A", "M", "B", "X", "Y", "Z"], none⟩
      rfl rfl rfl rfl rfl).mpr
      ⟨rfl, rfl, rfl, rfl, rfl, rfl, rfl, rfl, rfl, rfl, rfl⟩

/-- Apply one of the six index permutations to a triple of names (claim
side: "any reordering of [u1, u2, u3]"). -/
def applyPerm3 (sigma : List Nat) (u : List String) : List String :=
  [u.getD (sigma.getD 0 0) "", u.getD (sigma.getD 1 0) "", u.getD (sigma.getD 2 0) ""]

theorem not_mem_of_contains_eq_false {l : List Nat} {k : Nat}
    (h : l.contains k = false) : k ∉ l := by
  intro hmem
  have h2 : List.elem k l = false := h
  rw [List.elem_iff.mpr hmem] at h2
  cases h2

theorem findMatchIdxFrom_spec (pred : Statement → Bool) (used : List Nat) :
    ∀ (l : List Statement) (k i : Nat), findMatchIdxFrom pred used l k = some i →
      k ≤ i ∧ i ∉ used ∧ ∃ p, l.get? (i - k) = some p ∧ pred p = true := by
  intro l
  induction l with
  | nil => intro k i h; cases h
  | cons p rest ih =>
    intro k i h
    unfold findMatchIdxFrom at h
    by_cases hc : (!(used.contains k) && pred p) = true
    · rw [if_pos hc] at h
      rw [Option.some_inj] at h
      subst h
      simp only [Bool.and_eq_true, Bool.not_eq_true'] at hc
      exact ⟨Nat.le_refl k, not_mem_of_contains_eq_false hc.1,
        p, by simp [Nat.sub_self], hc.2⟩
    · rw [if_neg hc] at h
      obtain ⟨hk, hmem, q, hq, hpred⟩ := ih (k + 1) i h
      refine ⟨by omega, hmem, q, ?_, hpred⟩
      have : i - k = (i - (k + 1)) + 1 := by omega
      rw [this, List.get?_cons_succ]
      exact hq

/-- Claim side: every required premise is matched to a distinct, not
previously consumed prerequisite — no prerequisite index is used twice. -/
def matchedToDistinct (ps required : List Statement) : Prop :=
  ∃ idx : List Nat, idx.length = required.length ∧ idx.Nodup ∧
    ∀ j, j < required.length →
      ∃ p, ps.get? (idx.getD j 0) = some p ∧
        statementsEqualStructural p (required.getD j dummyStatement) = true

theorem matchRequiredWith_distinct (slot : Statement → Statement → Bool)
    (ps : List Statement) :
    ∀ (required : List Statement) (used : List Nat),
      matchRequiredWith slot ps required used = true →
      ∃ idx : List Nat, idx.length = required.length ∧ idx.Nodup ∧
        (∀ i ∈ idx, i ∉ used) ∧
        ∀ j, j < required.length →
          ∃ p, ps.get? (idx.getD j 0) = some p ∧
            slot p (required.getD j dummyStatement) = true := by
  intro required
  induction required with
  | nil =>
    intro used _
    exact ⟨[], rfl, List.nodup_nil, by simp, by intro j hj; exact absurd hj (by simp)⟩
  | cons r rest ih =>
    intro used h
    unfold matchRequiredWith at h
    cases hf : findMatchIdxFrom (fun p => slot p r) used ps 0 with
    | none => rw [hf] at h; cases h
    | some i =>
      rw [hf] at h
      obtain ⟨-, hiused, p, hp, hslot⟩ := findMatchIdxFrom_spec _ _ _ _ _ hf
      obtain ⟨idx, hlen, hnodup, hfresh, hpt⟩ := ih (i :: used) h
      refine ⟨i :: idx, by simp [hlen], ?_, ?_, ?_⟩
      · refine List.nodup_cons.mpr ⟨?_, hnodup⟩
        intro hmem
        exact (hfresh i hmem) (List.mem_cons_self i used)
      · intro j hj
        rcases List.mem_cons.mp hj with rfl | hj2
        · exact hiused
        · intro hju
          exact (hfresh j hj2) (List.mem_cons_of_mem i hju)
      · intro j hj
        cases j with
        | zero =>
          refine ⟨p, ?_, hslot⟩
          simpa using hp
        | succ j2 =>
          have hj2 : j2 < rest.length := by
            simp only [List.length_cons] at hj
            omega
          obtain ⟨q, hq, hqs⟩ := hpt j2 hj2
          exact ⟨q, by simpa using hq, by simpa using hqs⟩

/-- Plumbing: the post-resolution work for reason `sas` on a 6-name
triangles-congruent outcome is the count check followed by the SAS search. -/
theorem verifyWithPrereqs_sas_eq (o : Statement) (ps : List Statement)
    (hk : o.kind = StatementKind.trianglesCongruent) (hlen : o.pointNames.length = 6) :
    verifyWithPrereqs "sas" (reasonAt 11) o ps =
      if ps.length < (reasonAt 11).premises.length then
        ⟨false, "This reason requires " ++ toString (reasonAt 11).premises.length ++
          " prerequisite(s)."⟩
      else if sasSearch ps o.pointNames then ⟨true, statementToString o⟩
      else
        ⟨false, "No valid SAS combination: need two sides and the included angle equal under the same correspondence."⟩ := by
  unfold verifyWithPrereqs
  simp only [hk, hlen,
    show (("sas" : String) == "transitivity-equals") = false from rfl,
    show chainReasonIds.contains "sas" = false from rfl,
    show (("sas" : String) == "sas") = true from rfl,
    show (StatementKind.trianglesCongruent == StatementKind.trianglesCongruent) = true from rfl,
    show ((6 : Nat) == 6) = true from rfl,
    Bool.false_and, Bool.true_and, Bool.and_true, Bool.false_eq_true, if_false, if_true]

/-- Acceptance shape for a `sas` step with a 6-name congruence outcome. -/
theorem sas_ok_iff (check : Statement → Bool) (refs : List PrerequisiteRef)
    (prev : List ProofStep) (givens : List Statement) (ps : List Statement) (o : Statement)
    (hk : o.kind = StatementKind.trianglesCongruent) (hlen : o.pointNames.length = 6)
    (hres : getPrerequisiteStatements (prev.length + 1) refs prev givens = some ps) :
    okOf (verifyStep check ⟨o, "sas", refs⟩ prev givens) = true ↔
      (¬ ps.length < 3 ∧ sasSearch ps o.pointNames = true) := by
  rw [verifyStep_eq_withPrereqs "sas" (reasonAt 11) rfl rfl rfl rfl rfl rfl rfl check o refs
    prev givens, hres]
  simp only [Option.map_some', okOf]
  rw [verifyWithPrereqs_sas_eq o ps hk hlen]
  by_cases hc : ps.length < (reasonAt 11).premises.length
  · rw [if_pos hc]
    have hc3 : ps.length < 3 := hc
    simp [hc3]
  · rw [if_neg hc]
    have hc3 : ¬ ps.length < 3 := hc
    by_cases hs : sasSearch ps o.pointNames = true
    · rw [if_pos hs]
      simp [hc3, hs]
    · rw [if_neg hs]
      simp [hc3, hs]

/-- Composition of two index permutations of a triple. -/
def compPerm (sigma q : List Nat) : List Nat :=
  [sigma.getD (q.getD 0 0) 0, sigma.getD (q.getD 1 0) 0, sigma.getD (q.getD 2 0) 0]

theorem exists_compPerm_eq :
    ∀ sigma ∈ TRIANGLE_SECOND_PERMS, ∀ p ∈ TRIANGLE_SECOND_PERMS,
      ∃ q ∈ TRIANGLE_SECOND_PERMS, compPerm sigma q = p := by decide

theorem getD_cons3_add (L : List String) (n : Nat) (a b c : String) :
    (a :: b :: c :: L).getD (3 + n) "" = L.getD n "" := by
  have h : 3 + n = n + 3 := by omega
  rw [h]
  rfl

theorem tri2Of_literal (p : List Nat) (t1 t2 t3 u1 u2 u3 : String) :
    tri2Of [t1, t2, t3, u1, u2, u3] p = applyPerm3 p [u1, u2, u3] := by
  unfold tri2Of applyPerm3
  rw [getD_cons3_add, getD_cons3_add, getD_cons3_add]

theorem tri2Of_perm_append (sigma q : List Nat) (hq : q ∈ TRIANGLE_SECOND_PERMS)
    (t1 t2 t3 u1 u2 u3 : String) :
    tri2Of ([t1, t2, t3] ++ applyPerm3 sigma [u1, u2, u3]) q =
      applyPerm3 (compPerm sigma q) [u1, u2, u3] := by
  fin_cases hq <;> rfl

/-- Absorbing a reordering of the outcome second triangle into the searched
permutation: if some tried permutation matches for `[t1,t2,t3,u1,u2,u3]`,
some tried permutation matches after the second triple is reordered. -/
theorem sasSearch_perm (sigma : List Nat) (hsigma : sigma ∈ TRIANGLE_SECOND_PERMS)
    (ps : List Statement) (t1 t2 t3 u1 u2 u3 : String)
    (h : sasSearch ps [t1, t2, t3, u1, u2, u3] = true) :
    sasSearch ps ([t1, t2, t3] ++ applyPerm3 sigma [u1, u2, u3]) = true := by
  unfold sasSearch at h ⊢
  obtain ⟨p, hp, hinner⟩ := List.any_eq_true.mp h
  obtain ⟨q, hq, hcomp⟩ := exists_compPerm_eq sigma hsigma p hp
  refine List.any_eq_true.mpr ⟨q, hq, ?_⟩
  have e2 : tri2Of ([t1, t2, t3] ++ applyPerm3 sigma [u1, u2, u3]) q =
      tri2Of [t1, t2, t3, u1, u2, u3] p := by
    rw [tri2Of_perm_append sigma q hq, hcomp, tri2Of_literal]
  simp only [e2]
  exact hinner

/-- C4. For `sas` with a 6-name triangles-congruent outcome and a fixed
prerequisite list, acceptance is invariant under every reordering of the
outcome's second-triangle names; and acceptance requires the three required
premises (two sides and the included angle, at some tried permutation and
rotation) to structurally match pairwise-distinct prerequisites — one
prerequisite never satisfies two required premises. -/
theorem c4_sas_permutation_search :
    (∀ (check : Statement → Bool) (refs : List PrerequisiteRef) (prev : List ProofStep)
        (givens : List Statement) (cst cst2 : Option ℚ) (t1 t2 t3 u1 u2 u3 : String)
        (sigma : List Nat), sigma ∈ TRIANGLE_SECOND_PERMS →
      okOf (verifyStep check
        ⟨⟨.trianglesCongruent, [t1, t2, t3, u1, u2, u3], cst⟩, "sas", refs⟩ prev givens) =
          true →
      okOf (verifyStep check
        ⟨⟨.trianglesCongruent, [t1, t2, t3] ++ applyPerm3 sigma [u1, u2, u3], cst2⟩,
          "sas", refs⟩ prev givens) = true) ∧
    (∀ (check : Statement → Bool) (refs : List PrerequisiteRef) (prev : List ProofStep)
        (givens : List Statement) (o : Statement),
      o.kind = StatementKind.trianglesCongruent → o.pointNames.length = 6 →
      okOf (verifyStep check ⟨o, "sas", refs⟩ prev givens) = true →
      ∃ ps perm v, getPrerequisiteStatements (prev.length + 1) refs prev givens = some ps ∧
        perm ∈ TRIANGLE_SECOND_PERMS ∧ v < 3 ∧
        matchedToDistinct ps
          (sasRequired (tri1Of o.pointNames) (tri2Of o.pointNames perm) v)) := by
  constructor
  · intro check refs prev givens cst cst2 t1 t2 t3 u1 u2 u3 sigma hsigma h
    cases hg : getPrerequisiteStatements (prev.length + 1) refs prev givens with
    | none =>
      rw [verifyStep_eq_withPrereqs "sas" (reasonAt 11) rfl rfl rfl rfl rfl rfl rfl, hg] at h
      simp [okOf] at h
    | some ps =>
      have h1 := (sas_ok_iff check refs prev givens ps
        ⟨.trianglesCongruent, [t1, t2, t3, u1, u2, u3], cst⟩ rfl rfl hg).mp h
      exact (sas_ok_iff check refs prev givens ps
        ⟨.trianglesCongruent, [t1, t2, t3] ++ applyPerm3 sigma [u1, u2, u3], cst2⟩ rfl rfl
        hg).mpr ⟨h1.1, sasSearch_perm sigma hsigma ps t1 t2 t3 u1 u2 u3 h1.2⟩
  · intro check refs prev givens o hk hlen h
    cases hg : getPrerequisiteStatements (prev.length + 1) refs prev givens with
    | none =>
      rw [verifyStep_eq_withPrereqs "sas" (reasonAt 11) rfl rfl rfl rfl rfl rfl rfl, hg] at h
      simp [okOf] at h
    | some ps =>
      have h1 := (sas_ok_iff check refs prev givens ps o hk hlen hg).mp h
      unfold sasSearch at h1
      obtain ⟨perm, hperm, hrot⟩ := List.any_eq_true.mp h1.2
      obtain ⟨v, hv, hmatch⟩ := List.any_eq_true.mp hrot
      have hv3 : v < 3 := by
        fin_cases hv <;> omega
      obtain ⟨idx, hlen2, hnodup, -, hpt⟩ :=
        matchRequiredWith_distinct structuralSlot ps _ [] hmatch
      exact ⟨ps, perm, v, rfl, hperm, hv3, idx, hlen2, hnodup, hpt⟩

/-- Concrete instance of C4: the SAS fixture accepted with identity naming
is also accepted with the second triangle reordered by (0 2 1), and its
acceptance yields a distinct-prerequisite matching. -/
theorem c4_sas_permutation_search_witness :
    okOf (verifyStep (fun _ => false)
      ⟨⟨.trianglesCongruent, ["A", "M", "B"] ++ applyPerm3 [0, 2, 1] ["A", "M", "C"], none⟩,
        "sas", [.idx 1, .idx 2, .idx 3]⟩
      [⟨⟨.segmentEqualsSegment, ["A", "M", "A", "M"], none⟩, REASON_GIVEN, []⟩,
       ⟨⟨.segmentEqualsSegment, ["B", "M", "M", "C"], none⟩, REASON_GIVEN, []⟩,
       ⟨⟨.angleEqualsAngle, ["A", "M", "B", "A", "M", "C"], none⟩, REASON_GIVEN, []⟩]
      []) = true ∧
    (∃ ps perm v,
      getPrerequisiteStatements 4 [.idx 1, .idx 2, .idx 3]
        [⟨⟨.segmentEqualsSegment, ["A", "M", "A", "M"], none⟩, REASON_GIVEN, []⟩,
         ⟨⟨.segmentEqualsSegment, ["B", "M", "M", "C"], none⟩, REASON_GIVEN, []⟩,
         ⟨⟨.angleEqualsAngle, ["A", "M", "B", "A", "M", "C"], none⟩, REASON_GIVEN, []⟩]
        [] = some ps ∧
      perm ∈ TRIANGLE_SECOND_PERMS ∧ v < 3 ∧
      matchedToDistinct ps
        (sasRequired
          (tri1Of (⟨.trianglesCongruent, ["A", "M", "B", "A", "M", "C"], none⟩ :
            Statement).pointNames)
          (tri2Of (⟨.trianglesCongruent, ["A", "M", "B", "A", "M", "C"], none⟩ :
            Statement).pointNames perm) v)) :=
  ⟨c4_sas_permutation_search.1 (fun _ => false) [.idx 1, .idx 2, .idx 3]
      [⟨⟨.segmentEqualsSegment, ["A", "M", "A", "M"], none⟩, REASON_GIVEN, []⟩,
       ⟨⟨.segmentEqualsSegment, ["B", "M", "M", "C"], none⟩, REASON_GIVEN, []⟩,
       ⟨⟨.angleEqualsAngle, ["A", "M", "B", "A", "M", "C"], none⟩, REASON_GIVEN, []⟩]
      [] none none "A" "M" "B" "A" "M" "C" [0, 2, 1] (by decide) (by decide),
   c4_sas_permutation_search.2 (fun _ => false) [.idx 1, .idx 2, .idx 3]
      [⟨⟨.segmentEqualsSegment, ["A", "M", "A", "M"], none⟩, REASON_GIVEN, []⟩,
       ⟨⟨.segmentEqualsSegment, ["B", "M", "M", "C"], none⟩, REASON_GIVEN, []⟩,
       ⟨⟨.angleEqualsAngle, ["A", "M", "B", "A", "M", "C"], none⟩, REASON_GIVEN, []⟩]
      [] ⟨.trianglesCongruent, ["A", "M", "B", "A", "M", "C"], none⟩ rfl rfl (by decide)⟩

/-- A name as produced by the statement parser or point labels in practice:
free of the two separator characters the structural keys use.  The key
encoding is injective only for such names. -/
def plainName (s : String) : Prop :=
  (',' ∉ s.data) ∧ (':' ∉ s.data)

theorem append_sep_inj {sep : Char} :
    ∀ {x1 x2 y1 y2 : List Char}, sep ∉ x1 → sep ∉ x2 →
      x1 ++ sep :: y1 = x2 ++ sep :: y2 → x1 = x2 ∧ y1 = y2 := by
  intro x1
  induction x1 with
  | nil =>
    intro x2 y1 y2 _ hx2 h
    cases x2 with
    | nil => simpa using h
    | cons b bs =>
      simp only [List.nil_append, List.cons_append, List.cons.injEq] at h
      exact absurd (h.1 ▸ List.mem_cons_self b bs) (h.1 ▸ hx2)
  | cons a as ih =>
    intro x2 y1 y2 hx1 hx2 h
    cases x2 with
    | nil =>
      simp only [List.cons_append, List.nil_append, List.cons.injEq] at h
      exact absurd (h.1 ▸ List.mem_cons_self a as) (fun hmem => hx1 (h.1 ▸ hmem))
    | cons b bs =>
      simp only [List.cons_append, List.cons.injEq] at h
      obtain ⟨hab, hrest⟩ := h
      have hx1' : sep ∉ as := fun hmem => hx1 (List.mem_cons_of_mem a hmem)
      have hx2' : sep ∉ bs := fun hmem => hx2 (List.mem_cons_of_mem b hmem)
      obtain ⟨he, hy⟩ := ih hx1' hx2' hrest
      exact ⟨by rw [hab, he], hy⟩

theorem string_sep_inj (sepStr : String) (sep : Char) (hsepd : sepStr.data = [sep])
    (u1 u2 v1 v2 : String) (h1 : sep ∉ u1.data) (h2 : sep ∉ u2.data)
    (h : u1 ++ sepStr ++ v1 = u2 ++ sepStr ++ v2) :
    u1 = u2 ∧ v1 = v2 := by
  have hd := congrArg String.data h
  simp only [String.data_append, hsepd] at hd
  rw [List.append_assoc, List.append_assoc] at hd
  simp only [List.singleton_append] at hd
  obtain ⟨hu, hv⟩ := append_sep_inj h1 h2 hd
  exact ⟨string_eq_of_data hu, string_eq_of_data hv⟩

theorem jsPair_inj (x1 y1 x2 y2 : String)
    (hx1 : ',' ∉ x1.data) (hy1 : ',' ∉ y1.data) (hx2 : ',' ∉ x2.data) (hy2 : ',' ∉ y2.data)
    (h : (if jsLt x1 y1 then x1 ++ "," ++ y1 else y1 ++ "," ++ x1) =
         (if jsLt x2 y2 then x2 ++ "," ++ y2 else y2 ++ "," ++ x2)) :
    (x1 = x2 ∧ y1 = y2) ∨ (x1 = y2 ∧ y1 = x2) := by
  by_cases c1 : jsLt x1 y1 = true <;> by_cases c2 : jsLt x2 y2 = true
  · rw [if_pos c1, if_pos c2] at h
    exact Or.inl (string_sep_inj "," ',' rfl x1 x2 y1 y2 hx1 hx2 h)
  · rw [if_pos c1, if_neg c2] at h
    exact Or.inr (string_sep_inj "," ',' rfl x1 y2 y1 x2 hx1 hy2 h)
  · rw [if_neg c1, if_pos c2] at h
    obtain ⟨h1, h2⟩ := string_sep_inj "," ',' rfl y1 x2 x1 y2 hy1 hx2 h
    exact Or.inr ⟨h2, h1⟩
  · rw [if_neg c1, if_neg c2] at h
    obtain ⟨h1, h2⟩ := string_sep_inj "," ',' rfl y1 y2 x1 x2 hy1 hy2 h
    exact Or.inl ⟨h2, h1⟩

theorem angleTripleKey_ne_empty (x y z : String) : angleTripleKey x y z ≠ "" := by
  intro h
  have hd := congrArg String.data h
  unfold angleTripleKey at hd
  by_cases c : jsLt x z = true <;>
    simp [c, String.data_append] at hd

theorem angleTripleKey_inj (p0 p1 p2 a m c : String)
    (h0 : plainName p0) (h1 : plainName p1) (h2 : plainName p2)
    (ha : plainName a) (hm : plainName m) (hc : plainName c) :
    angleTripleKey p0 p1 p2 = angleTripleKey a m c ↔
      (p1 = m ∧ ((p0 = a ∧ p2 = c) ∨ (p0 = c ∧ p2 = a))) := by
  constructor
  · intro h
    unfold angleTripleKey at h
    obtain ⟨hveq, hother⟩ := string_sep_inj ":" ':' rfl p1 m _ _ h1.2 hm.2 h
    refine ⟨hveq, ?_⟩
    exact jsPair_inj p0 p2 a c h0.1 h2.1 ha.1 hc.1 hother
  · rintro ⟨rfl, ⟨rfl, rfl⟩ | ⟨rfl, rfl⟩⟩
    · rfl
    · exact angleTripleKey_swap p0 p1 p2

theorem getD_mem_of_lt {l : List String} {n : Nat} {d : String} (h : n < l.length) :
    l.getD n d ∈ l := by
  rw [List.getD_eq_getElem l d h]
  exact List.getElem_mem h

/-- C10. In HL verification, a required right-angle premise is satisfied by
a cited prerequisite iff the prerequisite is an angle-equals-constant whose
constant is absent or exactly 90 and whose point triple matches the required
triple up to an arm swap at the fixed vertex.  The hypotheses record the
system invariant that point names contain neither of the key separator
characters. -/
theorem c10_hl_right_angle_slot (p : Statement) (a m c : String)
    (hp : ∀ n ∈ p.pointNames, plainName n)
    (ha : plainName a) (hm : plainName m) (hc : plainName c) :
    hlPremiseMatches p ⟨.angleEqualsConstant, [a, m, c], some 90⟩ = true ↔
      (p.kind = StatementKind.angleEqualsConstant ∧
       (p.constant = none ∨ p.constant = some 90) ∧
       3 ≤ p.pointNames.length ∧
       p.pointNames.getD 1 "" = m ∧
       ((p.pointNames.getD 0 "" = a ∧ p.pointNames.getD 2 "" = c) ∨
        (p.pointNames.getD 0 "" = c ∧ p.pointNames.getD 2 "" = a))) := by
  unfold hlPremiseMatches
  by_cases h90 : angle90 p = true
  · rw [if_neg (by simp [h90])]
    have hkc := h90
    unfold angle90 at hkc
    simp only [Bool.and_eq_true, beq_iff_eq, Bool.or_eq_true] at hkc
    obtain ⟨hkind, hconst⟩ := hkc
    unfold statementsEqualStructural
    rw [if_neg (by simp [hkind]), if_neg (by simp [hkind]), if_pos (by simp [hkind])]
    rw [beq_iff_eq]
    rw [show angleConstantStatementKey ⟨.angleEqualsConstant, [a, m, c], some 90⟩ =
      angleTripleKey a m c from rfl]
    unfold angleConstantStatementKey
    by_cases hlen : p.pointNames.length < 3
    · rw [if_pos (by simp [hlen])]
      constructor
      · intro h
        exact absurd h.symm (angleTripleKey_ne_empty a m c)
      · rintro ⟨-, -, h3, -⟩
        omega
    · rw [if_neg (by simp [hkind, hlen])]
      have hlen3 : 3 ≤ p.pointNames.length := Nat.not_lt.mp hlen
      have hm0 : p.pointNames.getD 0 "" ∈ p.pointNames := getD_mem_of_lt (by omega)
      have hm1 : p.pointNames.getD 1 "" ∈ p.pointNames := getD_mem_of_lt (by omega)
      have hm2 : p.pointNames.getD 2 "" ∈ p.pointNames := getD_mem_of_lt (by omega)
      rw [angleTripleKey_inj _ _ _ _ _ _ (hp _ hm0) (hp _ hm1) (hp _ hm2) ha hm hc]
      constructor
      · rintro ⟨hv, harm⟩
        exact ⟨hkind, hconst, hlen3, hv, harm⟩
      · rintro ⟨-, -, -, hv, harm⟩
        exact ⟨hv, harm⟩
  · rw [if_pos (by
      simp only [Bool.and_eq_true, Bool.not_eq_true']
      exact ⟨by decide, Bool.of_not_eq_true h90⟩)]
    constructor
    · intro h
      cases h
    · rintro ⟨hkind, hconst, -⟩
      refine absurd ?_ h90
      unfold angle90
      simp only [hkind, Bool.and_eq_true, beq_iff_eq, Bool.or_eq_true]
      exact ⟨by decide, hconst⟩

/-- Concrete instances of C10: an absent-constant arm-swapped prerequisite
fills the slot; a 45° prerequisite does not. -/
theorem c10_hl_right_angle_slot_witness :
    hlPremiseMatches ⟨.angleEqualsConstant, ["C", "M", "A"], none⟩
      ⟨.angleEqualsConstant, ["A", "M", "C"], some 90⟩ = true ∧
    hlPremiseMatches ⟨.angleEqualsConstant, ["A", "M", "C"], some 45⟩
      ⟨.angleEqualsConstant, ["A", "M", "C"], some 90⟩ = false :=
  ⟨(c10_hl_right_angle_slot ⟨.angleEqualsConstant, ["C", "M", "A"], none⟩ "A" "M" "C"
      (by intro n hn; fin_cases hn <;> exact ⟨by decide, by decide⟩)
      ⟨by decide, by decide⟩ ⟨by decide, by decide⟩ ⟨by decide, by decide⟩).mpr
    ⟨rfl, Or.inl rfl, by decide, rfl, Or.inr ⟨rfl, rfl⟩⟩,
   by decide⟩

end BespokeGeometry

